import Mathlib

/-!
Shallow embedding of the `cryptowatchers` dashboard logic.

The repository holds two versions of one React component:
* `src/src/components/CryptoDashboard.tsx` — fetches a Google-Sheets CSV
  export, parses it with `parseCSV`, normalizes rows, and derives sorted
  views plus "Top Gainers"/"Top Losers" buckets;
* `src/unnamed/part_000` — an earlier webhook version with its own
  normalizer and an always-two-decimals `formatLargeNumber`.

JavaScript numbers are modelled as exact rationals (ℚ); a JS `NaN`
produced by a failed `parseFloat`/`parseInt` is modelled as `none` of an
`Option`.  JS `Array.prototype.sort` is required to be stable (ES2019),
so it is modelled by `List.insertionSort` with the non-strict relation
induced by the comparator.  `String.prototype.localeCompare` is modelled
by the lexicographic order on Lean strings (a fixed total collation
order).  `new Date()` readings are passed in as explicit parameters.
-/

namespace CryptoWatchers

/-! ### JS string and number primitives -/

/-- JS string truthiness on an optional string: `undefined` and `""` are
falsy; a truthy value is kept.  Models `a || b` chains on strings. -/
def truthyStr (o : Option String) : Option String :=
  match o with
  | none => none
  | some s => if s = "" then none else some s

/-- Model of `s.replace(/"/g, '')`: remove every double-quote character. -/
def stripQuotes (s : String) : String :=
  String.mk (s.toList.filter (fun c => c ≠ '"'))

/-- Model of `s.replace(/[,$]/g, '')`: remove every comma and dollar sign. -/
def stripCommaDollar (s : String) : String :=
  String.mk (s.toList.filter (fun c => c ≠ ',' ∧ c ≠ '$'))

/-- Model of `s.replace(/'/g, '')`: remove every apostrophe. -/
def stripApostrophes (s : String) : String :=
  String.mk (s.toList.filter (fun c => c ≠ Char.ofNat 39))

/-- Model of `s.toLowerCase()` (ASCII-faithful model). -/
def jsToLower (s : String) : String :=
  String.mk (s.toList.map Char.toLower)

/-- Model of `s.replace(/\s+/g, '-')`: collapse every maximal run of whitespace
into a single hyphen.  `inRun` records whether the previous character
was part of a whitespace run. -/
def collapseWsAux : List Char → Bool → List Char
  | [], _ => []
  | c :: rest, inRun =>
    if c.isWhitespace then
      if inRun then collapseWsAux rest true
      else '-' :: collapseWsAux rest true
    else c :: collapseWsAux rest false

def collapseWsToHyphen (s : String) : String :=
  String.mk (collapseWsAux s.toList false)

/-- Model of `s.trim()`: remove leading and trailing whitespace. -/
def jsTrim (s : String) : String :=
  String.mk (((s.toList.dropWhile Char.isWhitespace).reverse.dropWhile
    Char.isWhitespace).reverse)

/-- Model of `String.prototype.split` with a one-character separator: every
occurrence splits, and empty segments are kept (`"".split(x) = [""]`). -/
def jsSplitAux (sep : Char) : List Char → List (List Char)
  | [] => [[]]
  | c :: rest =>
    match jsSplitAux sep rest with
    | [] => [[c]]
    | h :: t => if c = sep then [] :: h :: t else (c :: h) :: t

def jsSplit (sep : Char) (s : String) : List String :=
  (jsSplitAux sep s.toList).map String.mk

/-- Numeric value of a list of decimal digit characters. -/
def digitsToNat : List Char → ℕ
  | [] => 0
  | c :: rest => digitsToNat rest + (c.toNat - 48) * 10 ^ rest.length

/-- One decimal digit of `n`, used to render fixed-width fractions. -/
def decimalDigitChar (n : ℕ) : Char := Nat.digitChar (n % 10)

/-- Model of `parseFloat` on a string (ECMA `StrDecimalLiteral` without
`Infinity`): optional leading whitespace, optional sign, then digits
with an optional fraction and an optional exponent; `none` models `NaN`
(no digit could be read).  The unparsed tail is ignored, as in JS. -/
def jsParseFloat (s : String) : Option ℚ :=
  let l := s.toList.dropWhile Char.isWhitespace
  let (sign, l) : ℤ × List Char :=
    match l with
    | '-' :: rest => (-1, rest)
    | '+' :: rest => (1, rest)
    | _ => (1, l)
  let intDigits := l.takeWhile Char.isDigit
  let l := l.drop intDigits.length
  let (fracDigits, l) : List Char × List Char :=
    match l with
    | '.' :: rest => (rest.takeWhile Char.isDigit, rest.drop (rest.takeWhile Char.isDigit).length)
    | _ => ([], l)
  if intDigits = [] ∧ fracDigits = [] then none
  else
    -- the value is sign * (int.frac) * 10^exp, assembled as one exact fraction
    let expVal : ℤ :=
      match l with
      | 'e' :: rest | 'E' :: rest =>
        let (esign, rest) : ℤ × List Char :=
          match rest with
          | '-' :: r => (-1, r)
          | '+' :: r => (1, r)
          | _ => (1, rest)
        let eDigits := rest.takeWhile Char.isDigit
        if eDigits = [] then 0 else esign * (digitsToNat eDigits : ℤ)
      | _ => 0
    let mantNum : ℕ := digitsToNat intDigits * 10 ^ fracDigits.length + digitsToNat fracDigits
    let (scaleNum, scaleDen) : ℕ × ℕ :=
      if 0 ≤ expVal then (10 ^ expVal.toNat, 1) else (1, 10 ^ (-expVal).toNat)
    some (mkRat (sign * (mantNum * scaleNum : ℕ)) (10 ^ fracDigits.length * scaleDen))

/-- Model of `parseInt` on a string (radix 10): optional leading whitespace,
optional sign, then decimal digits; `none` models `NaN`. -/
def jsParseInt (s : String) : Option ℤ :=
  let l := s.toList.dropWhile Char.isWhitespace
  let (sign, l) : ℤ × List Char :=
    match l with
    | '-' :: rest => (-1, rest)
    | '+' :: rest => (1, rest)
    | _ => (1, l)
  let ds := l.takeWhile Char.isDigit
  if ds = [] then none else some (sign * (digitsToNat ds : ℤ))

/-- Model of `Number.prototype.toFixed f` on an exact rational: the sign is taken
first, then the magnitude `a/d` is rounded to the integer `n` minimizing
`|n / 10^f - a/d|`, ties to the larger `n` (ECMA
`Number.prototype.toFixed`), computed as
`n = ⌊a/d * 10^f + 1/2⌋ = (2 * a * 10^f + d) / (2 * d)` in ℕ;
the fraction is rendered with exactly `f` digits. -/
def jsToFixed (f : ℕ) (q : ℚ) : String :=
  let sign := if q.num < 0 then "-" else ""
  let n : ℕ := (2 * q.num.natAbs * 10 ^ f + q.den) / (2 * q.den)
  let ip := toString (n / 10 ^ f)
  if f = 0 then sign ++ ip
  else
    sign ++ ip ++ "." ++
      String.mk ((List.range f).map fun i => decimalDigitChar (n / 10 ^ (f - 1 - i)))

/-! ### The price record and the mock data

`CryptoData` from both versions of the component, with the numeric
fields as exact rationals (the displayed arrays never hold `NaN`-free
guarantees beyond what the sources provide, and the mock data is exact).
-/

structure CryptoData where
  id : String
  name : String
  symbol : String
  price : ℚ
  change24h : ℚ
  marketCap : ℚ
  volume24h : ℚ
  logo : String
  rank : ℚ
  lastUpdated : String
  deriving DecidableEq, Repr

/-- The three built-in mock records (`mockData` in both versions); the
`lastUpdated` field is `new Date().toISOString()` and is passed in. -/
def mockBitcoin (nowIso : String) : CryptoData :=
  { id := "bitcoin", name := "Bitcoin", symbol := "BTC",
    price := mkRat 6854234 100, change24h := mkRat 234 100,  -- 68542.34, 2.34
    marketCap := mkRat 1347000000000 1, volume24h := mkRat 28500000000 1,
    logo := "₿", rank := mkRat 1 1, lastUpdated := nowIso }

def mockEthereum (nowIso : String) : CryptoData :=
  { id := "ethereum", name := "Ethereum", symbol := "ETH",
    price := mkRat 342167 100, change24h := mkRat (-123) 100,  -- 3421.67, -1.23
    marketCap := mkRat 411000000000 1, volume24h := mkRat 15200000000 1,
    logo := "Ξ", rank := mkRat 2 1, lastUpdated := nowIso }

def mockSolana (nowIso : String) : CryptoData :=
  { id := "solana", name := "Solana", symbol := "SOL",
    price := mkRat 18742 100, change24h := mkRat 876 100,  -- 187.42, 8.76
    marketCap := mkRat 88000000000 1, volume24h := mkRat 3200000000 1,
    logo := "◎", rank := mkRat 3 1, lastUpdated := nowIso }

def mockData (nowIso : String) : List CryptoData :=
  [mockBitcoin nowIso, mockEthereum nowIso, mockSolana nowIso]

/-! ### Sorting and the display list (Google-Sheets version) -/

/-- Lexicographic comparison of character lists by code point, the
model of the total collation order behind
`String.prototype.localeCompare` (`lexLeChars a b = true` iff
`a.localeCompare(b) <= 0`). -/
def lexLeChars : List Char → List Char → Bool
  | [], _ => true
  | _ :: _, [] => false
  | a :: as, b :: bs =>
    if a.toNat < b.toNat then true
    else if b.toNat < a.toNat then false
    else lexLeChars as bs

/-- Model of `a.localeCompare(b) <= 0` under the fixed collation order. -/
def localeLe (a b : String) : Bool := lexLeChars a.toList b.toList

/-- The `sortBy` select state of the Google-Sheets version. -/
inductive SortKey where
  | price | name | marketCap | volume24h
  deriving DecidableEq, Repr

/-- The non-strict order induced by the comparator of
`sortedCryptoData`: `localeCompare` ascending on names, numeric
descending on market cap, volume and price (the `default` case is
`price`).  `sortRel k a b` holds when the comparator does not require
`b` before `a`. -/
def sortRel : SortKey → CryptoData → CryptoData → Prop
  | .name => fun a b => localeLe a.name b.name = true
  | .marketCap => fun a b => b.marketCap ≤ a.marketCap
  | .volume24h => fun a b => b.volume24h ≤ a.volume24h
  | .price => fun a b => b.price ≤ a.price

instance sortRelDecidable (k : SortKey) : DecidableRel (sortRel k) :=
  match k with
  | .name => fun a b => inferInstanceAs (Decidable (localeLe a.name b.name = true))
  | .marketCap => fun a b => inferInstanceAs (Decidable (b.marketCap ≤ a.marketCap))
  | .volume24h => fun a b => inferInstanceAs (Decidable (b.volume24h ≤ a.volume24h))
  | .price => fun a b => inferInstanceAs (Decidable (b.price ≤ a.price))

/-- Model of `(apiData || mockData).sort(comparator)`: a stable sort of the input
by the selected key (JS `Array.prototype.sort` is stable). -/
def sortedCryptoData (k : SortKey) (l : List CryptoData) : List CryptoData :=
  List.insertionSort (sortRel k) l

/-- The displayed array of the Google-Sheets version:
`(apiData || mockData).sort(...)`; `apiData` is `none` while no fetch
has succeeded. -/
def displayedData (nowIso : String) (k : SortKey) (apiData : Option (List CryptoData)) :
    List CryptoData :=
  sortedCryptoData k (apiData.getD (mockData nowIso))

/-- The displayed array of the webhook version: `apiData || mockData`. -/
def displayedDataWebhook (nowIso : String) (apiData : Option (List CryptoData)) :
    List CryptoData :=
  apiData.getD (mockData nowIso)

/-- Descending order on the 24-hour change, the order of the
`topGainers` comparator `(a, b) => b.change24h - a.change24h`. -/
def gainerRel (a b : CryptoData) : Prop := b.change24h ≤ a.change24h

/-- Ascending order on the 24-hour change, the order of the
`topLosers` comparator `(a, b) => a.change24h - b.change24h`. -/
def loserRel (a b : CryptoData) : Prop := a.change24h ≤ b.change24h

instance : DecidableRel gainerRel := fun a b =>
  inferInstanceAs (Decidable (b.change24h ≤ a.change24h))

instance : DecidableRel loserRel := fun a b =>
  inferInstanceAs (Decidable (a.change24h ≤ b.change24h))

/-- Model of `cryptoData.filter(c => c.change24h > 0).sort((a, b) => b.change24h - a.change24h).slice(0, 3)`. -/
def topGainers (l : List CryptoData) : List CryptoData :=
  ((l.filter fun c => 0 < c.change24h).insertionSort gainerRel).take 3

/-- Model of `cryptoData.filter(c => c.change24h < 0).sort((a, b) => a.change24h - b.change24h).slice(0, 3)`. -/
def topLosers (l : List CryptoData) : List CryptoData :=
  ((l.filter fun c => c.change24h < 0).insertionSort loserRel).take 3

/-! ### Number formatting -/

/-- Model of `10^k` as an exact rational (the literals `1e12`, `1e9`, `1e6`). -/
def pow10 (k : ℕ) : ℚ := mkRat (10 ^ k) 1

/-- Model of `value / 10^k`, computed exactly on the reduced fraction. -/
def divPow10 (q : ℚ) (k : ℕ) : ℚ := mkRat q.num (q.den * 10 ^ k)

/-- Model of `formatLargeNumber` of the webhook version (`src/unnamed/part_000`):
`toFixed(2)` in every branch. -/
def formatLargeNumberWebhook (value : ℚ) : String :=
  if pow10 12 ≤ value then "$" ++ jsToFixed 2 (divPow10 value 12) ++ "T"
  else if pow10 9 ≤ value then "$" ++ jsToFixed 2 (divPow10 value 9) ++ "B"
  else if pow10 6 ≤ value then "$" ++ jsToFixed 2 (divPow10 value 6) ++ "M"
  else "$" ++ jsToFixed 2 value

/-- Model of `formatted % 1 === 0` on an exact rational: the quotient is a whole
number exactly when its reduced denominator is 1. -/
def isWholeNumber (q : ℚ) : Bool := q.den = 1

/-- The quotient rendering of the Google-Sheets `formatLargeNumber`:
`formatted % 1 === 0 ? formatted.toFixed(0) : formatted.toFixed(2)`. -/
def sheetsQuotientString (q : ℚ) : String :=
  if isWholeNumber q then jsToFixed 0 q else jsToFixed 2 q

/-- Model of `formatLargeNumber` of the Google-Sheets version
(`src/src/components/CryptoDashboard.tsx`). -/
def formatLargeNumberSheets (value : ℚ) : String :=
  if pow10 12 ≤ value then "$" ++ sheetsQuotientString (divPow10 value 12) ++ "T"
  else if pow10 9 ≤ value then "$" ++ sheetsQuotientString (divPow10 value 9) ++ "B"
  else if pow10 6 ≤ value then "$" ++ sheetsQuotientString (divPow10 value 6) ++ "M"
  else "$" ++ jsToFixed 2 value

/-- True exactly when the Google-Sheets `formatLargeNumber` takes a
suffixed branch whose quotient is a whole number (the only place the two
versions differ). -/
def sheetsWholeBranch (value : ℚ) : Bool :=
  if pow10 12 ≤ value then isWholeNumber (divPow10 value 12)
  else if pow10 9 ≤ value then isWholeNumber (divPow10 value 9)
  else if pow10 6 ≤ value then isWholeNumber (divPow10 value 6)
  else false

/-! ### Time formatting (Google-Sheets version)

`formatTimeAgo` first sanitizes the timestamp: the empty string, or a
string whose apostrophe-stripped form does not parse as a date, is
replaced by the current time.  Date parsing is host-defined, so it is a
parameter `parseDate : String → Option ℤ` (`none` models an invalid
date); `now` is the millisecond clock reading. -/

def sanitizeTimestamp (parseDate : String → Option ℤ) (now : ℤ) (s : String) : ℤ :=
  if s = "" then now
  else
    match parseDate (stripApostrophes s) with
    | some t => t
    | none => now

def formatTimeAgo (parseDate : String → Option ℤ) (now : ℤ) (timestamp : String) : String :=
  let time := sanitizeTimestamp parseDate now timestamp
  let diffInSeconds : ℤ := Int.fdiv (now - time) 1000
  if diffInSeconds < 60 then toString diffInSeconds ++ "s ago"
  else if diffInSeconds < 3600 then toString (Int.fdiv diffInSeconds 60) ++ "m ago"
  else toString (Int.fdiv diffInSeconds 3600) ++ "h ago"

/-! ### CSV parsing (Google-Sheets version) -/

/-- One CSV cell list: `line.split(',').map(v => v.trim().replace(/"/g, ''))`. -/
def parseCells (line : String) : List String :=
  (jsSplit ',' line).map fun v => stripQuotes (jsTrim v)

/-- Model of `values[index] || ''`: an out-of-range index (`undefined`) and an
empty cell both yield the empty string. -/
def cellAt (values : List String) (index : ℕ) : String :=
  match values.get? index with
  | none => ""
  | some v => if v = "" then "" else v

/-- Model of `parseCSV`: split the trimmed text into lines; fewer than two lines
yield `[]`; otherwise the first line gives the headers and every later
line becomes one row object, modelled as the header-ordered association
list built by `headers.forEach((header, index) => obj[header] = values[index] || '')`. -/
def parseCSV (csvText : String) : List (List (String × String)) :=
  let lines := jsSplit '\n' (jsTrim csvText)
  if lines.length < 2 then []
  else
    match lines with
    | [] => []
    | firstLine :: rest =>
      let headers := parseCells firstLine
      rest.map fun line =>
        let values := parseCells line
        headers.enum.map fun p => (p.2, cellAt values p.1)

/-! ### Normalization, Google-Sheets version

A fetched row is the association list a `parseCSV` row produces; field
access `item.x` is first-occurrence lookup (`none` models an absent
property). -/

def getField (row : List (String × String)) (key : String) : Option String :=
  (row.find? fun p => p.1 = key).map Prod.snd

/-- Model of `parseFloat(item.<key>?.replace(/[,$]/g, '') || 0)` when `strip` is
set, `parseFloat(item.<key> || 0)` otherwise: an absent field, an empty
string, or a string emptied by the stripping yields `parseFloat(0) = 0`;
any other string goes through `parseFloat` (`none` models `NaN`). -/
def numericField (strip : Bool) (row : List (String × String)) (key : String) : Option ℚ :=
  match getField row key with
  | none => some 0
  | some s =>
    let c := if strip then stripCommaDollar s else s
    if c = "" then some 0 else jsParseFloat c

/-- Model of `extractNumericId`: a falsy `logoUrl` yields `index + 1`; otherwise
the first occurrence of `/images/<digits>/` yields the digits' value and
a non-matching URL yields `index + 1`. -/
def imagesNumAux : List Char → Option ℕ
  | [] => none
  | c :: rest =>
    let here : Option ℕ :=
      if ("/images/".toList).isPrefixOf (c :: rest) then
        let l := (c :: rest).drop 8
        let ds := l.takeWhile Char.isDigit
        if ds ≠ [] ∧ (l.drop ds.length).head? = some '/' then some (digitsToNat ds)
        else none
      else none
    match here with
    | some n => some n
    | none => imagesNumAux rest

def extractNumericId (logoUrl : Option String) (index : ℕ) : ℕ :=
  match truthyStr logoUrl with
  | none => index + 1
  | some s =>
    match imagesNumAux s.toList with
    | some n => n
    | none => index + 1

/-- The normalized record of the Google-Sheets version.  The numeric
fields are `Option ℚ` (`none` models `NaN` from `parseFloat`); the rank
is a natural number by construction. -/
structure NormRecordSheets where
  id : String
  name : String
  symbol : String
  price : Option ℚ
  change24h : Option ℚ
  marketCap : Option ℚ
  volume24h : Option ℚ
  logo : String
  rank : ℕ
  lastUpdated : String
  deriving DecidableEq, Repr

/-- The row-to-record mapping inside the Google-Sheets `fetchCryptoData`
(`data.map((item, index) => ...)`); `nowIso` models
`new Date().toISOString()`. -/
def normalizeSheets (nowIso : String) (index : ℕ) (row : List (String × String)) :
    NormRecordSheets :=
  { id :=
      (truthyStr (getField row "coin_id")).getD
        ((truthyStr ((getField row "name").map
            fun n => collapseWsToHyphen (jsToLower n))).getD
          ("crypto-" ++ toString index)),
    name := (truthyStr (getField row "name")).getD "Unknown",
    symbol := (truthyStr (getField row "symbol")).getD "N/A",
    price := numericField true row "last_price",
    change24h := numericField false row "last_change_pct",
    marketCap := numericField true row "market_cap",
    volume24h := numericField true row "volume",
    logo := (truthyStr (getField row "logo_url")).getD "₿",
    rank := extractNumericId (getField row "logo_url") index,
    lastUpdated := (truthyStr (getField row "last_alert_timestamp")).getD nowIso }

/-! ### Normalization, webhook version

The webhook returns JSON; the fields the normalizer reads are either
strings or numbers. -/

inductive JVal where
  | str (s : String)
  | num (q : ℚ)
  deriving DecidableEq, Repr

/-- JS truthiness of a JSON field value (`""` and `0` are falsy). -/
def jvalTruthy : JVal → Bool
  | .str s => s ≠ ""
  | .num q => q ≠ 0

/-- Model of `a || b` on optional JSON values. -/
def jsOrJ (a : Option JVal) (b : Option JVal) : Option JVal :=
  match a with
  | some v => if jvalTruthy v then some v else b
  | none => b

/-- Model of `parseFloat` applied to a JSON value: a number is coerced through
its decimal string, which reads back to the same rational; a string goes
through `jsParseFloat`. -/
def jsParseFloatJ : JVal → Option ℚ
  | .num q => some q
  | .str s => jsParseFloat s

/-- Model of `parseInt` applied to a JSON value: a number is coerced through its
decimal string, so it is truncated toward zero (`Int.tdiv`, matching JS
`parseInt(-2.7) = -2`); a string goes through `jsParseInt`. -/
def jsParseIntJ : JVal → Option ℤ
  | .num q => some (q.num.tdiv (q.den : ℤ))
  | .str s => jsParseInt s

/-- The fields of one webhook row that the normalizer reads; `none`
models an absent property. -/
structure WebhookRow where
  id : Option String := none
  name : Option String := none
  coin_name : Option String := none
  symbol : Option String := none
  coin_symbol : Option String := none
  price : Option JVal := none
  current_price : Option JVal := none
  price_usd : Option JVal := none
  change24h : Option JVal := none
  price_change_percentage_24h : Option JVal := none
  change_24h : Option JVal := none
  market_cap : Option JVal := none
  marketCap : Option JVal := none
  market_cap_usd : Option JVal := none
  volume24h : Option JVal := none
  total_volume : Option JVal := none
  volume_24h : Option JVal := none
  logo : Option String := none
  image : Option String := none
  rank : Option JVal := none
  market_cap_rank : Option JVal := none
  last_updated : Option String := none
  updated_at : Option String := none
  deriving DecidableEq, Repr

/-- The normalized record of the webhook version (`none` models `NaN`). -/
structure NormRecordWebhook where
  id : String
  name : String
  symbol : String
  price : Option ℚ
  change24h : Option ℚ
  marketCap : Option ℚ
  volume24h : Option ℚ
  logo : String
  rank : Option ℤ
  lastUpdated : String
  deriving DecidableEq, Repr

/-- Model of `parseFloat(a || b || c || 0)` on three optional JSON fields. -/
def numericField3 (a b c : Option JVal) : Option ℚ :=
  jsParseFloatJ ((jsOrJ a (jsOrJ b (jsOrJ c none))).getD (.num 0))

/-- The row-to-record mapping inside the webhook `fetchCryptoData`
(`cryptoArray.map((item, index) => ...)`). -/
def normalizeWebhook (nowIso : String) (index : ℕ) (item : WebhookRow) :
    NormRecordWebhook :=
  { id :=
      (truthyStr item.id).getD
        ((truthyStr (item.name.map jsToLower)).getD ("crypto-" ++ toString index)),
    name := (truthyStr item.name).getD ((truthyStr item.coin_name).getD "Unknown"),
    symbol := (truthyStr item.symbol).getD ((truthyStr item.coin_symbol).getD "N/A"),
    price := numericField3 item.price item.current_price item.price_usd,
    change24h := numericField3 item.change24h item.price_change_percentage_24h item.change_24h,
    marketCap := numericField3 item.market_cap item.marketCap item.market_cap_usd,
    volume24h := numericField3 item.volume24h item.total_volume item.volume_24h,
    logo :=
      (truthyStr item.logo).getD
        ((truthyStr item.image).getD
          ((truthyStr (item.symbol.map fun s => String.mk (s.toList.take 1))).getD "₿")),
    rank := jsParseIntJ ((jsOrJ item.rank (jsOrJ item.market_cap_rank none)).getD
      (.num (mkRat (index + 1) 1))),
    lastUpdated := (truthyStr item.last_updated).getD ((truthyStr item.updated_at).getD nowIso) }

/-- The webhook row with every field absent. -/
def emptyWebhookRow : WebhookRow := {}

/-- A JSON field that contributes nothing to a `a || b` chain: it is
absent, or its value is falsy (the empty string, or the number 0). -/
def falsyJ (o : Option JVal) : Prop := ∀ v, o = some v → jvalTruthy v = false

/-! ## Order lemmas for the sort relations -/

theorem lexLeChars_cons (x y : Char) (xs ys : List Char) :
    lexLeChars (x :: xs) (y :: ys) =
      if x.toNat < y.toNat then true
      else if y.toNat < x.toNat then false
      else lexLeChars xs ys := rfl

theorem lexLeChars_total : ∀ a b : List Char, lexLeChars a b = true ∨ lexLeChars b a = true := by
  intro a
  induction a with
  | nil => intro b; exact Or.inl rfl
  | cons x xs ih =>
    intro b
    cases b with
    | nil => exact Or.inr rfl
    | cons y ys =>
      rw [lexLeChars_cons, lexLeChars_cons]
      rcases Nat.lt_trichotomy x.toNat y.toNat with h | h | h
      · left; simp [h]
      · rcases ih ys with h2 | h2 <;> [left; right] <;> simp [h, h2]
      · right; simp [h, Nat.lt_asymm h]

theorem lexLeChars_trans :
    ∀ a b c : List Char, lexLeChars a b = true → lexLeChars b c = true →
      lexLeChars a c = true := by
  intro a
  induction a with
  | nil => intro b c _ _; rfl
  | cons x xs ih =>
    intro b c h1 h2
    cases b with
    | nil => simp [lexLeChars] at h1
    | cons y ys =>
      cases c with
      | nil => simp [lexLeChars] at h2
      | cons z zs =>
        rw [lexLeChars_cons] at h1 h2 ⊢
        split_ifs at h1 h2 ⊢ <;>
          first
            | rfl
            | exact ih ys zs h1 h2
            | (exfalso; omega)

theorem sortRel_total (k : SortKey) : ∀ a b, sortRel k a b ∨ sortRel k b a := by
  cases k with
  | name => intro a b; exact lexLeChars_total a.name.toList b.name.toList
  | marketCap => intro a b; exact le_total b.marketCap a.marketCap
  | volume24h => intro a b; exact le_total b.volume24h a.volume24h
  | price => intro a b; exact le_total b.price a.price

theorem sortRel_trans (k : SortKey) :
    ∀ a b c, sortRel k a b → sortRel k b c → sortRel k a c := by
  cases k with
  | name => intro a b c h1 h2; exact lexLeChars_trans _ _ _ h1 h2
  | marketCap => intro a b c h1 h2; exact le_trans h2 h1
  | volume24h => intro a b c h1 h2; exact le_trans h2 h1
  | price => intro a b c h1 h2; exact le_trans h2 h1

theorem sortRel_mock_BE (now now2 : String) (k : SortKey) :
    sortRel k (mockBitcoin now) (mockEthereum now2) := by
  cases k with
  | name => exact (by decide : localeLe "Bitcoin" "Ethereum" = true)
  | marketCap => exact (by decide : (mkRat 411000000000 1 : ℚ) ≤ mkRat 1347000000000 1)
  | volume24h => exact (by decide : (mkRat 15200000000 1 : ℚ) ≤ mkRat 28500000000 1)
  | price => exact (by decide : (mkRat 342167 100 : ℚ) ≤ mkRat 6854234 100)

theorem sortRel_mock_ES (now now2 : String) (k : SortKey) :
    sortRel k (mockEthereum now) (mockSolana now2) := by
  cases k with
  | name => exact (by decide : localeLe "Ethereum" "Solana" = true)
  | marketCap => exact (by decide : (mkRat 88000000000 1 : ℚ) ≤ mkRat 411000000000 1)
  | volume24h => exact (by decide : (mkRat 3200000000 1 : ℚ) ≤ mkRat 15200000000 1)
  | price => exact (by decide : (mkRat 18742 100 : ℚ) ≤ mkRat 342167 100)

/-- The mock list is already in display order for all four sort keys, so
sorting returns it unchanged. -/
theorem sortedCryptoData_mock (now : String) (k : SortKey) :
    sortedCryptoData k (mockData now) = mockData now := by
  simp only [sortedCryptoData, mockData, List.insertionSort, List.orderedInsert]
  rw [if_pos (sortRel_mock_ES now now k)]
  simp only [List.orderedInsert]
  rw [if_pos (sortRel_mock_BE now now k)]

/-- A falsy field falls through a JS or-chain. -/
theorem jsOrJ_falsy {a : Option JVal} (h : falsyJ a) (b : Option JVal) :
    jsOrJ a b = b := by
  cases ha : a with
  | none => rfl
  | some v => simp [jsOrJ, h v ha]

/-- Shared shape of a `filter → stable sort → slice(0, 3)` bucket: the
slice is sorted, the slice and the rest of the sorted list together are
a permutation of the filtered input, and every sliced element is
related to every dropped one. -/
theorem bucket_spec (r : CryptoData → CryptoData → Prop) [DecidableRel r]
    (htot : ∀ a b, r a b ∨ r b a) (htrans : ∀ a b c, r a b → r b c → r a c)
    (l : List CryptoData) :
    ((l.insertionSort r).take 3).Sorted r ∧
    ((l.insertionSort r).take 3 ++ (l.insertionSort r).drop 3).Perm l ∧
    (∀ x ∈ (l.insertionSort r).take 3, ∀ y ∈ (l.insertionSort r).drop 3, r x y) := by
  haveI : IsTotal CryptoData r := ⟨htot⟩
  haveI : IsTrans CryptoData r := ⟨fun a b c => htrans a b c⟩
  have hs := List.sorted_insertionSort r l
  refine ⟨List.Pairwise.sublist (List.take_sublist 3 _) hs, ?_, ?_⟩
  · rw [List.take_append_drop]
    exact List.perm_insertionSort r l
  · have := hs
    rw [← List.take_append_drop 3 (l.insertionSort r)] at this
    exact (List.pairwise_append.mp this).2.2

/-- Claim **C1.** For every displayed record array, `topGainers` is the
strictly-positive-change records sorted by descending 24-hour change and
truncated to at most 3 entries, and `topLosers` is the
strictly-negative-change records sorted by ascending 24-hour change and
truncated to at most 3 entries: every bucket entry has the required
sign, each bucket is sorted in its direction, has at most 3 entries,
partitions the corresponding filtered records together with the dropped
tail, and dominates every record it cut off. -/
theorem topGainers_topLosers_spec (l : List CryptoData) :
    (∀ c ∈ topGainers l, 0 < c.change24h) ∧
    (topGainers l).Sorted gainerRel ∧
    (topGainers l).length ≤ 3 ∧
    (topGainers l ++ ((l.filter fun c => 0 < c.change24h).insertionSort gainerRel).drop 3).Perm
      (l.filter fun c => 0 < c.change24h) ∧
    (∀ x ∈ topGainers l,
      ∀ y ∈ ((l.filter fun c => 0 < c.change24h).insertionSort gainerRel).drop 3,
        y.change24h ≤ x.change24h) ∧
    (∀ c ∈ topLosers l, c.change24h < 0) ∧
    (topLosers l).Sorted loserRel ∧
    (topLosers l).length ≤ 3 ∧
    (topLosers l ++ ((l.filter fun c => c.change24h < 0).insertionSort loserRel).drop 3).Perm
      (l.filter fun c => c.change24h < 0) ∧
    (∀ x ∈ topLosers l,
      ∀ y ∈ ((l.filter fun c => c.change24h < 0).insertionSort loserRel).drop 3,
        x.change24h ≤ y.change24h) := by
  obtain ⟨gs, gp, gd⟩ :=
    bucket_spec gainerRel (fun a b => le_total b.change24h a.change24h)
      (fun a b c h1 h2 => le_trans h2 h1) (l.filter fun c => 0 < c.change24h)
  obtain ⟨ls, lp, ld⟩ :=
    bucket_spec loserRel (fun a b => le_total a.change24h b.change24h)
      (fun a b c h1 h2 => le_trans h1 h2) (l.filter fun c => c.change24h < 0)
  refine ⟨?_, gs, List.length_take_le _ _, gp, gd, ?_, ls, List.length_take_le _ _, lp, ld⟩
  · intro c hc
    have hmem : c ∈ (l.filter fun c => 0 < c.change24h) :=
      ((List.perm_insertionSort gainerRel _).mem_iff).mp (List.mem_of_mem_take hc)
    simpa using (List.mem_filter.mp hmem).2
  · intro c hc
    have hmem : c ∈ (l.filter fun c => c.change24h < 0) :=
      ((List.perm_insertionSort loserRel _).mem_iff).mp (List.mem_of_mem_take hc)
    simpa using (List.mem_filter.mp hmem).2

/-- Claim **C5.** For every record array and every selected sort key, the
displayed "All Cryptocurrencies" list is a permutation of the input
records sorted by that key: ascending locale comparison of names for
`name`, descending market capitalization for `marketCap`, descending
24-hour volume for `volume24h`, and descending price for `price` (the
`default` case of the comparator). -/
theorem sortedCryptoData_spec (k : SortKey) (l : List CryptoData) :
    (sortedCryptoData k l).Perm l ∧ (sortedCryptoData k l).Sorted (sortRel k) := by
  haveI : IsTotal CryptoData (sortRel k) := ⟨sortRel_total k⟩
  haveI : IsTrans CryptoData (sortRel k) := ⟨fun a b c => sortRel_trans k a b c⟩
  exact ⟨List.perm_insertionSort _ l, List.sorted_insertionSort _ l⟩

/-- Claim **C6.** While no fetch has succeeded (`apiData` is absent) both
versions display exactly the three built-in mock records — in the
Google-Sheets version the sort leaves the mock list unchanged under
every sort key — and when fetched data is available it is displayed
instead: the Google-Sheets version shows a permutation of it (its
sorted view) and the webhook version shows it as-is. -/
theorem displayedData_fallback (nowIso : String) (k : SortKey) :
    displayedData nowIso k none = mockData nowIso ∧
    (∀ d, (displayedData nowIso k (some d)).Perm d) ∧
    displayedDataWebhook nowIso none = mockData nowIso ∧
    (∀ d, displayedDataWebhook nowIso (some d) = d) := by
  refine ⟨?_, ?_, rfl, fun d => rfl⟩
  · simpa [displayedData] using sortedCryptoData_mock nowIso k
  · intro d
    haveI : IsTotal CryptoData (sortRel k) := ⟨sortRel_total k⟩
    exact List.perm_insertionSort _ d

/-- Claim **C2** (counterexample).  Not every numeric field of the mock
records is non-negative: the Ethereum mock record's 24-hour percent
change is -1.23. -/
theorem mockData_nonneg_counterexample :
    ¬ ∀ c ∈ mockData "2024-01-01T00:00:00.000Z",
        0 ≤ c.price ∧ 0 ≤ c.change24h ∧ 0 ≤ c.marketCap ∧ 0 ≤ c.volume24h ∧ 0 ≤ c.rank := by
  decide

/-- Claim **C2** (amended).  Each mock record's price, market capitalization,
24-hour volume and rank are non-negative (the 24-hour change is not:
Ethereum's is -1.23).  A record normalized by the Google-Sheets version
has a non-negative rank by construction; in both versions every numeric
field defaults to 0 when its source fields are absent (or falsy, in the
webhook version), and the webhook rank defaults to the non-negative
`index + 1`; otherwise a numeric field takes whatever sign the source
data provides (in particular the webhook rank can be negative). -/
theorem mockData_normalized_sign_facts (nowIso now2 : String) (idx : ℕ)
    (row : List (String × String)) (item : WebhookRow) :
    (∀ c ∈ mockData nowIso, 0 ≤ c.price ∧ 0 ≤ c.marketCap ∧ 0 ≤ c.volume24h ∧ 0 ≤ c.rank) ∧
    0 ≤ (normalizeSheets now2 idx row).rank ∧
    (getField row "last_price" = none → (normalizeSheets now2 idx row).price = some 0) ∧
    (getField row "last_change_pct" = none →
      (normalizeSheets now2 idx row).change24h = some 0) ∧
    (getField row "market_cap" = none → (normalizeSheets now2 idx row).marketCap = some 0) ∧
    (getField row "volume" = none → (normalizeSheets now2 idx row).volume24h = some 0) ∧
    (falsyJ item.price → falsyJ item.current_price → falsyJ item.price_usd →
      (normalizeWebhook now2 idx item).price = some 0) ∧
    (falsyJ item.change24h → falsyJ item.price_change_percentage_24h →
      falsyJ item.change_24h → (normalizeWebhook now2 idx item).change24h = some 0) ∧
    (falsyJ item.market_cap → falsyJ item.marketCap → falsyJ item.market_cap_usd →
      (normalizeWebhook now2 idx item).marketCap = some 0) ∧
    (falsyJ item.volume24h → falsyJ item.total_volume → falsyJ item.volume_24h →
      (normalizeWebhook now2 idx item).volume24h = some 0) ∧
    (item.rank = none → item.market_cap_rank = none →
      (normalizeWebhook now2 idx item).rank = some ((idx + 1 : ℕ) : ℤ) ∧
        (0 : ℤ) ≤ ((idx + 1 : ℕ) : ℤ)) := by
  refine ⟨?_, Nat.zero_le _, ?_, ?_, ?_, ?_, ?_, ?_, ?_, ?_, ?_⟩
  · intro c hc
    simp only [mockData, List.mem_cons, List.not_mem_nil, or_false] at hc
    rcases hc with rfl | rfl | rfl
    · exact ⟨(by decide : (0 : ℚ) ≤ mkRat 6854234 100),
        (by decide : (0 : ℚ) ≤ mkRat 1347000000000 1),
        (by decide : (0 : ℚ) ≤ mkRat 28500000000 1),
        (by decide : (0 : ℚ) ≤ mkRat 1 1)⟩
    · exact ⟨(by decide : (0 : ℚ) ≤ mkRat 342167 100),
        (by decide : (0 : ℚ) ≤ mkRat 411000000000 1),
        (by decide : (0 : ℚ) ≤ mkRat 15200000000 1),
        (by decide : (0 : ℚ) ≤ mkRat 2 1)⟩
    · exact ⟨(by decide : (0 : ℚ) ≤ mkRat 18742 100),
        (by decide : (0 : ℚ) ≤ mkRat 88000000000 1),
        (by decide : (0 : ℚ) ≤ mkRat 3200000000 1),
        (by decide : (0 : ℚ) ≤ mkRat 3 1)⟩
  · intro h; simp [normalizeSheets, numericField, h]
  · intro h; simp [normalizeSheets, numericField, h]
  · intro h; simp [normalizeSheets, numericField, h]
  · intro h; simp [normalizeSheets, numericField, h]
  · intro h1 h2 h3
    simp [normalizeWebhook, numericField3, jsOrJ_falsy h1, jsOrJ_falsy h2, jsOrJ_falsy h3,
      jsParseFloatJ]
  · intro h1 h2 h3
    simp [normalizeWebhook, numericField3, jsOrJ_falsy h1, jsOrJ_falsy h2, jsOrJ_falsy h3,
      jsParseFloatJ]
  · intro h1 h2 h3
    simp [normalizeWebhook, numericField3, jsOrJ_falsy h1, jsOrJ_falsy h2, jsOrJ_falsy h3,
      jsParseFloatJ]
  · intro h1 h2 h3
    simp [normalizeWebhook, numericField3, jsOrJ_falsy h1, jsOrJ_falsy h2, jsOrJ_falsy h3,
      jsParseFloatJ]
  · intro h1 h2
    refine ⟨?_, Int.natCast_nonneg _⟩
    simp only [normalizeWebhook, jsOrJ, h1, h2, Option.getD_none, jsParseIntJ,
      Rat.mkRat_one, Rat.num_intCast, Rat.den_intCast, Nat.cast_add, Nat.cast_one,
      Int.tdiv_one]

/-- Claim **C2** (witness). -/
theorem mockData_normalized_sign_facts_witness :
    (0 ≤ (mockBitcoin "t").price ∧ 0 ≤ (mockBitcoin "t").marketCap ∧
      0 ≤ (mockBitcoin "t").volume24h ∧ 0 ≤ (mockBitcoin "t").rank) ∧
    (normalizeSheets "t" 0 []).price = some 0 ∧
    (normalizeWebhook "t" 0 emptyWebhookRow).price = some 0 ∧
    (normalizeWebhook "t" 0 emptyWebhookRow).rank = some ((0 + 1 : ℕ) : ℤ) :=
  ⟨(mockData_normalized_sign_facts "t" "t" 0 [] emptyWebhookRow).1 _ (by decide),
    (mockData_normalized_sign_facts "t" "t" 0 [] emptyWebhookRow).2.2.1 rfl,
    (mockData_normalized_sign_facts "t" "t" 0 [] emptyWebhookRow).2.2.2.2.2.2.1
      (fun v hv => nomatch hv) (fun v hv => nomatch hv) (fun v hv => nomatch hv),
    ((mockData_normalized_sign_facts "t" "t" 0 [] emptyWebhookRow).2.2.2.2.2.2.2.2.2.2
      rfl rfl).1⟩

/-- Model of `values[index] || ''` agrees with `getD index ''`. -/
theorem cellAt_eq_getD (values : List String) (i : ℕ) :
    cellAt values i = values.getD i "" := by
  unfold cellAt
  rw [List.getD_eq_getElem?_getD, ← List.get?_eq_getElem?]
  cases h : values.get? i with
  | none => rfl
  | some v => by_cases hv : v = "" <;> simp [hv]

/-- Claim **C4.** `parseCSV` returns `[]` when the trimmed text has fewer
than two lines; otherwise it returns one row object per line after the
first, associating each trimmed, quote-stripped header of the first
line with the corresponding trimmed, quote-stripped comma-separated
cell of that line, and the empty string at every header position where
the line has no value. -/
theorem parseCSV_spec (s : String) :
    ((jsSplit '\n' (jsTrim s)).length < 2 → parseCSV s = []) ∧
    (∀ firstLine rest, jsSplit '\n' (jsTrim s) = firstLine :: rest → rest ≠ [] →
      parseCSV s = rest.map fun line =>
        (parseCells firstLine).enum.map fun p => (p.2, (parseCells line).getD p.1 "")) := by
  constructor
  · intro h
    simp [parseCSV, h]
  · intro firstLine rest hsplit hne
    have hlen : ¬ (firstLine :: rest).length < 2 := by
      have := List.length_pos.mpr hne
      simp only [List.length_cons]
      omega
    simp only [parseCSV]
    rw [hsplit, if_neg hlen]
    simp only [cellAt_eq_getD]

/-- Claim **C4** (witness). -/
theorem parseCSV_spec_witness :
    jsSplit '\n' (jsTrim "name,symbol\nBitcoin,BTC") = "name,symbol" :: ["Bitcoin,BTC"] ∧
    parseCSV "name,symbol\nBitcoin,BTC" = [[("name", "Bitcoin"), ("symbol", "BTC")]] := by
  refine ⟨by decide, ?_⟩
  rw [(parseCSV_spec "name,symbol\nBitcoin,BTC").2 "name,symbol" ["Bitcoin,BTC"]
    (by decide) (by decide)]
  decide

/-- Claim **C7.** Both `formatLargeNumber` versions pick the `T`/`B`/`M`
suffix at the `1e12`/`1e9`/`1e6` thresholds, dividing by the threshold,
always prefixed with `$`; smaller values are rendered with `toFixed(2)`
and no suffix; the webhook version always renders the quotient with two
decimals, while the Google-Sheets version renders a whole-number
quotient with none and any other quotient with two; and `toFixed(2)`
output always carries exactly two decimal digits. -/
theorem formatLargeNumber_cases (value : ℚ) :
    (pow10 12 ≤ value →
      formatLargeNumberSheets value = "$" ++ sheetsQuotientString (divPow10 value 12) ++ "T" ∧
      formatLargeNumberWebhook value = "$" ++ jsToFixed 2 (divPow10 value 12) ++ "T") ∧
    (¬ pow10 12 ≤ value → pow10 9 ≤ value →
      formatLargeNumberSheets value = "$" ++ sheetsQuotientString (divPow10 value 9) ++ "B" ∧
      formatLargeNumberWebhook value = "$" ++ jsToFixed 2 (divPow10 value 9) ++ "B") ∧
    (¬ pow10 9 ≤ value → pow10 6 ≤ value →
      formatLargeNumberSheets value = "$" ++ sheetsQuotientString (divPow10 value 6) ++ "M" ∧
      formatLargeNumberWebhook value = "$" ++ jsToFixed 2 (divPow10 value 6) ++ "M") ∧
    (¬ pow10 6 ≤ value →
      formatLargeNumberSheets value = "$" ++ jsToFixed 2 value ∧
      formatLargeNumberWebhook value = "$" ++ jsToFixed 2 value) ∧
    (∀ q : ℚ, isWholeNumber q = true → sheetsQuotientString q = jsToFixed 0 q) ∧
    (∀ q : ℚ, isWholeNumber q = false → sheetsQuotientString q = jsToFixed 2 q) ∧
    (∀ q : ℚ, ∃ pre post : String,
      jsToFixed 2 q = pre ++ "." ++ post ∧ post.length = 2) := by
  have h96 : pow10 6 ≤ pow10 9 := by decide
  have h129 : pow10 9 ≤ pow10 12 := by decide
  refine ⟨?_, ?_, ?_, ?_, ?_, ?_, ?_⟩
  · intro h
    constructor <;> simp [formatLargeNumberSheets, formatLargeNumberWebhook, h]
  · intro h12 h9
    constructor <;>
      simp [formatLargeNumberSheets, formatLargeNumberWebhook, h12, h9]
  · intro h9 h6
    have h12 : ¬ pow10 12 ≤ value := fun h => h9 (le_trans h129 h)
    constructor <;>
      simp [formatLargeNumberSheets, formatLargeNumberWebhook, h12, h9, h6]
  · intro h6
    have h9 : ¬ pow10 9 ≤ value := fun h => h6 (le_trans h96 h)
    have h12 : ¬ pow10 12 ≤ value := fun h => h9 (le_trans h129 h)
    constructor <;>
      simp [formatLargeNumberSheets, formatLargeNumberWebhook, h12, h9, h6]
  · intro q h
    simp [sheetsQuotientString, h]
  · intro q h
    simp [sheetsQuotientString, h]
  · intro q
    refine ⟨(if q.num < 0 then "-" else "") ++
      toString ((2 * q.num.natAbs * 10 ^ 2 + q.den) / (2 * q.den) / 10 ^ 2), ?_, ?_, ?_⟩
    · exact String.mk (((List.range 2).map fun i =>
        decimalDigitChar ((2 * q.num.natAbs * 10 ^ 2 + q.den) / (2 * q.den) / 10 ^ (2 - 1 - i))))
    · simp [jsToFixed]
    · simp

/-- Claim **C7** (witness). -/
theorem formatLargeNumber_cases_witness :
    pow10 12 ≤ (mkRat 1347000000000 1 : ℚ) ∧
    formatLargeNumberSheets (mkRat 1347000000000 1) = "$1.35T" ∧
    formatLargeNumberWebhook (mkRat 1347000000000 1) = "$1.35T" := by
  have h := (formatLargeNumber_cases (mkRat 1347000000000 1)).1 (by decide)
  exact ⟨by decide, by rw [h.1]; decide, by rw [h.2]; decide⟩

/-- Claim **C9.** The Google-Sheets `formatTimeAgo` is total: every result
has the shape `<n>s ago`, `<n>m ago` or `<n>h ago`, and an empty or
unparsable timestamp is replaced by the current time, yielding
`0s ago`. -/
theorem formatTimeAgo_total (parseDate : String → Option ℤ) (now : ℤ) (timestamp : String) :
    (∃ n : ℤ,
      formatTimeAgo parseDate now timestamp = toString n ++ "s ago" ∨
      formatTimeAgo parseDate now timestamp = toString n ++ "m ago" ∨
      formatTimeAgo parseDate now timestamp = toString n ++ "h ago") ∧
    ((timestamp = "" ∨ parseDate (stripApostrophes timestamp) = none) →
      formatTimeAgo parseDate now timestamp = "0s ago") := by
  constructor
  · simp only [formatTimeAgo]
    split_ifs
    · exact ⟨_, Or.inl rfl⟩
    · exact ⟨_, Or.inr (Or.inl rfl)⟩
    · exact ⟨_, Or.inr (Or.inr rfl)⟩
  · intro h
    have hsan : sanitizeTimestamp parseDate now timestamp = now := by
      by_cases he : timestamp = ""
      · simp [sanitizeTimestamp, he]
      · rcases h with h | h
        · exact absurd h he
        · simp [sanitizeTimestamp, he, h]
    simp only [formatTimeAgo, hsan, sub_self, Int.zero_fdiv]
    decide

/-- Claim **C9** (witness). -/
theorem formatTimeAgo_total_witness :
    formatTimeAgo (fun _ => none) 0 "not a date" = "0s ago" :=
  (formatTimeAgo_total (fun _ => none) 0 "not a date").2 (Or.inr rfl)

/-- Claim **C10** (counterexample).  The two `formatLargeNumber` versions
disagree at `1e6`: the Google-Sheets version renders `$1M`, the webhook
version `$1.00M`. -/
theorem formatLargeNumber_versions_differ :
    formatLargeNumberSheets (mkRat 1000000 1) = "$1M" ∧
    formatLargeNumberWebhook (mkRat 1000000 1) = "$1.00M" ∧
    formatLargeNumberSheets (mkRat 1000000 1) ≠ formatLargeNumberWebhook (mkRat 1000000 1) :=
  ⟨by decide, by decide, by decide⟩

/-- Claim **C10** (amended).  Whenever the Google-Sheets version does not hit
a suffixed branch with a whole-number quotient — in particular for
every value below `1e6` — the two versions return the same string. -/
theorem formatLargeNumber_agree (value : ℚ)
    (h : sheetsWholeBranch value = false) :
    formatLargeNumberSheets value = formatLargeNumberWebhook value := by
  unfold sheetsWholeBranch at h
  unfold formatLargeNumberSheets formatLargeNumberWebhook
  split_ifs at h ⊢ <;> simp [sheetsQuotientString, h]

/-- Claim **C10** (witness). -/
theorem formatLargeNumber_agree_witness :
    sheetsWholeBranch (mkRat 1347000000000 1) = false ∧
    formatLargeNumberSheets (mkRat 1347000000000 1) =
      formatLargeNumberWebhook (mkRat 1347000000000 1) :=
  ⟨by decide, formatLargeNumber_agree _ (by decide)⟩

/-- Claim **C1** (witness). -/
theorem topGainers_topLosers_spec_witness :
    0 < (mockSolana "t").change24h ∧ (mockEthereum "t").change24h < 0 :=
  ⟨(topGainers_topLosers_spec (mockData "t")).1 _ (by decide),
    (topGainers_topLosers_spec (mockData "t")).2.2.2.2.2.1 _ (by decide)⟩

/-- Claim **C3.** Normalization is total and fills every field of the fixed
record shape: in both versions the name defaults to `Unknown` and the
symbol to `N/A` when the source fields are absent; the four numeric
fields default to 0 when their source fields are absent or empty; the
id falls back first to a name-derived value (lowercased, and in the
Google-Sheets version with whitespace runs turned into hyphens) and
then to `crypto-<index>`; and the last-updated timestamp falls back to
the current time. -/
theorem normalization_defaults (nowIso : String) (idx : ℕ)
    (row : List (String × String)) (item : WebhookRow) :
    (getField row "name" = none → (normalizeSheets nowIso idx row).name = "Unknown") ∧
    (getField row "symbol" = none → (normalizeSheets nowIso idx row).symbol = "N/A") ∧
    (getField row "last_price" = none ∨ getField row "last_price" = some "" →
      (normalizeSheets nowIso idx row).price = some 0) ∧
    (getField row "last_change_pct" = none ∨ getField row "last_change_pct" = some "" →
      (normalizeSheets nowIso idx row).change24h = some 0) ∧
    (getField row "market_cap" = none ∨ getField row "market_cap" = some "" →
      (normalizeSheets nowIso idx row).marketCap = some 0) ∧
    (getField row "volume" = none ∨ getField row "volume" = some "" →
      (normalizeSheets nowIso idx row).volume24h = some 0) ∧
    (truthyStr (getField row "coin_id") = none → getField row "name" = none →
      (normalizeSheets nowIso idx row).id = "crypto-" ++ toString idx) ∧
    (∀ nm, truthyStr (getField row "coin_id") = none → getField row "name" = some nm →
      collapseWsToHyphen (jsToLower nm) ≠ "" →
      (normalizeSheets nowIso idx row).id = collapseWsToHyphen (jsToLower nm)) ∧
    (getField row "last_alert_timestamp" = none →
      (normalizeSheets nowIso idx row).lastUpdated = nowIso) ∧
    (item.name = none → item.coin_name = none →
      (normalizeWebhook nowIso idx item).name = "Unknown") ∧
    (item.symbol = none → item.coin_symbol = none →
      (normalizeWebhook nowIso idx item).symbol = "N/A") ∧
    (falsyJ item.price → falsyJ item.current_price → falsyJ item.price_usd →
      (normalizeWebhook nowIso idx item).price = some 0) ∧
    (falsyJ item.change24h → falsyJ item.price_change_percentage_24h →
      falsyJ item.change_24h → (normalizeWebhook nowIso idx item).change24h = some 0) ∧
    (falsyJ item.market_cap → falsyJ item.marketCap → falsyJ item.market_cap_usd →
      (normalizeWebhook nowIso idx item).marketCap = some 0) ∧
    (falsyJ item.volume24h → falsyJ item.total_volume → falsyJ item.volume_24h →
      (normalizeWebhook nowIso idx item).volume24h = some 0) ∧
    (truthyStr item.id = none → item.name = none →
      (normalizeWebhook nowIso idx item).id = "crypto-" ++ toString idx) ∧
    (∀ nm, truthyStr item.id = none → item.name = some nm → jsToLower nm ≠ "" →
      (normalizeWebhook nowIso idx item).id = jsToLower nm) ∧
    (item.last_updated = none → item.updated_at = none →
      (normalizeWebhook nowIso idx item).lastUpdated = nowIso) := by
  refine ⟨?_, ?_, ?_, ?_, ?_, ?_, ?_, ?_, ?_, ?_, ?_, ?_, ?_, ?_, ?_, ?_, ?_, ?_⟩
  · intro h; simp [normalizeSheets, truthyStr, h]
  · intro h; simp [normalizeSheets, truthyStr, h]
  · rintro (h | h) <;> simp +decide [normalizeSheets, numericField, h]
  · rintro (h | h) <;> simp +decide [normalizeSheets, numericField, h]
  · rintro (h | h) <;> simp +decide [normalizeSheets, numericField, h]
  · rintro (h | h) <;> simp +decide [normalizeSheets, numericField, h]
  · intro h1 h2
    simp only [truthyStr] at h1
    simp [normalizeSheets, truthyStr, h1, h2]
  · intro nm h1 h2 h3
    simp only [truthyStr] at h1
    simp [normalizeSheets, truthyStr, h1, h2, h3]
  · intro h; simp [normalizeSheets, truthyStr, h]
  · intro h1 h2; simp [normalizeWebhook, truthyStr, h1, h2]
  · intro h1 h2; simp [normalizeWebhook, truthyStr, h1, h2]
  · intro h1 h2 h3
    simp [normalizeWebhook, numericField3, jsOrJ_falsy h1, jsOrJ_falsy h2, jsOrJ_falsy h3,
      jsParseFloatJ]
  · intro h1 h2 h3
    simp [normalizeWebhook, numericField3, jsOrJ_falsy h1, jsOrJ_falsy h2, jsOrJ_falsy h3,
      jsParseFloatJ]
  · intro h1 h2 h3
    simp [normalizeWebhook, numericField3, jsOrJ_falsy h1, jsOrJ_falsy h2, jsOrJ_falsy h3,
      jsParseFloatJ]
  · intro h1 h2 h3
    simp [normalizeWebhook, numericField3, jsOrJ_falsy h1, jsOrJ_falsy h2, jsOrJ_falsy h3,
      jsParseFloatJ]
  · intro h1 h2
    simp only [truthyStr] at h1
    simp [normalizeWebhook, truthyStr, h1, h2]
  · intro nm h1 h2 h3
    simp only [truthyStr] at h1
    simp [normalizeWebhook, truthyStr, h1, h2, h3]
  · intro h1 h2; simp [normalizeWebhook, truthyStr, h1, h2]

/-- Claim **C3** (witness). -/
theorem normalization_defaults_witness :
    (normalizeSheets "NOW" 7 []).name = "Unknown" ∧
    (normalizeSheets "NOW" 7 []).price = some 0 ∧
    (normalizeSheets "NOW" 7 []).id = "crypto-7" ∧
    (normalizeSheets "NOW" 7 []).lastUpdated = "NOW" ∧
    (normalizeWebhook "NOW" 7 emptyWebhookRow).symbol = "N/A" ∧
    (normalizeWebhook "NOW" 7 emptyWebhookRow).change24h = some 0 ∧
    (normalizeWebhook "NOW" 7 emptyWebhookRow).id = "crypto-7" := by
  have h := normalization_defaults "NOW" 7 [] emptyWebhookRow
  exact ⟨h.1 rfl, h.2.2.1 (Or.inl rfl), h.2.2.2.2.2.2.1 rfl rfl, h.2.2.2.2.2.2.2.2.1 rfl,
    h.2.2.2.2.2.2.2.2.2.2.1 rfl rfl, h.2.2.2.2.2.2.2.2.2.2.2.2.1 (fun v hv => nomatch hv) (fun v hv => nomatch hv)
      (fun v hv => nomatch hv),
    h.2.2.2.2.2.2.2.2.2.2.2.2.2.2.2.1 rfl rfl⟩

end CryptoWatchers
